import Mathlib

/-!
Shallow embedding of the Sales-CRM client session manager and lead
pagination helpers.

Sources embedded:
- the AuthProvider (login, logout, fetchWithAuth, refreshToken, refreshUser,
  and the startup load effect) from the auth context module;
- the data service (fetchLeads normalization, fetchAllLeads pagination loop);
- the mock pagination endpoint (fetchMockLeads).

Modelling conventions:
- JavaScript strings that may be null or undefined become Option String;
  null and undefined are both none.  JavaScript truthiness on such values
  (empty string, null and undefined are falsy) is jsTruthy.
- localStorage is a single cell Option StoredVal; a stored value is either
  a well-formed record (StoredVal.good) or unparsable text (StoredVal.bad).
  JSON.parse of a good value yields the record, of a bad value throws.
- React state setters are modelled by threading a World value; a closure
  created at operation start reads the captured pre-operation World, which
  models stale-closure reads of useState values.
- the network is a script of responses consumed in program order; each
  performed fetch is recorded as a Req so call counts and URLs are provable.
-/

/-- The User profile record of the auth context (interface User). -/
structure User where
  userid : Nat := 0
  name : String := ""
  email : String := ""
  roleid : Nat := 0
  status : Option String := none
  managerid : Option Int := none
  departmentid : Option Int := none
  lastlogin : Option String := none
deriving DecidableEq, Repr

/-- JavaScript truthiness of a nullable string: null, undefined and ""
are falsy. -/
def jsTruthy : Option String → Bool
  | some s => s != ""
  | none => false

/-- JavaScript a || b on nullable strings: keep a when truthy, else b. -/
def jsOrS (a b : Option String) : Option String :=
  if jsTruthy a then a else b

/-- JavaScript a ?? b (nullish coalescing) on nullable strings: keep a
whenever it is not null or undefined, even when it is "". -/
def jsNullish (a b : Option String) : Option String :=
  match a with
  | some x => some x
  | none => b

/-- In-memory React state of the AuthProvider: user, token,
refreshTokenValue. -/
structure AuthState where
  user : Option User := none
  token : Option String := none
  refreshTokenValue : Option String := none
deriving DecidableEq, Repr

/-- Shape of the record persisted under the fixed key "auth".  The
legacy field token is accepted as an alias of accessToken on load. -/
structure StoredRecord where
  user : Option User := none
  accessToken : Option String := none
  tokenLegacy : Option String := none
  refreshToken : Option String := none
deriving DecidableEq, Repr

/-- Content of the localStorage cell: a parsable record or unparsable
raw text (on which JSON.parse throws). -/
inductive StoredVal
  | good (r : StoredRecord)
  | bad (raw : String)
deriving DecidableEq, Repr

/-- Combined mutable world: React state plus the persisted cell. -/
structure World where
  auth : AuthState := {}
  storage : Option StoredVal := none
deriving DecidableEq, Repr

/-- An HTTP response as consumed by the auth flows: status plus the JSON
body fields the code reads (accessToken, token, refreshToken, and the
user profile for login and the /me endpoint). -/
structure HttpResponse where
  status : Nat := 200
  accessToken : Option String := none
  tokenField : Option String := none
  newRefreshToken : Option String := none
  userData : Option User := none
deriving DecidableEq, Repr

/-- res.ok of the Fetch API: status in the 2xx range. -/
def HttpResponse.ok (r : HttpResponse) : Bool :=
  200 ≤ r.status && r.status < 300

/-- A performed network request: final URL, Authorization header value if
one was attached, and the relevant submitted body value (the lower-cased
email for login, the posted refresh token for refresh). -/
structure Req where
  url : String
  auth : Option String := none
  body : Option String := none
deriving DecidableEq, Repr

/-- The Authorization header attached for a held token: set only when the
token is truthy (if (token) headers.set(...)). -/
def bearerOf (t : Option String) : Option String :=
  match t with
  | some s => if s != "" then some ("Bearer " ++ s) else none
  | none => none

/-- Environment: the configured API base URL (VITE_API_BASE_URL after
stripping trailing slashes), or none when unset. -/
structure FetchEnv where
  base : Option String := none

/-- startsWith on strings via character lists, so that it reduces inside
kernel evaluation. -/
def strStarts (s pre : String) : Bool :=
  pre.toList.isPrefixOf s.toList

/-- toLowerCase of JavaScript modelled per character. -/
def strToLower (s : String) : String :=
  String.mk (s.toList.map Char.toLower)

/-- Crude model of new URL(s) succeeding: the string is an absolute
http(s) URL. -/
def isAbsoluteUrl (s : String) : Bool :=
  strStarts s "http://" || strStarts s "https://"

/-- buildUrl of the AuthProvider: absolute URLs pass through; relative
paths are prefixed with the base URL when one is configured, inserting a
slash when the path does not start with one; with no base the path is
left as-is. -/
def buildUrl (base : Option String) (p : String) : String :=
  if isAbsoluteUrl p then p
  else
    match base with
    | none => p
    | some b => b ++ (if strStarts p "/" then "" else "/") ++ p

/-- The input sanitization of fetchWithAuth: a string matching the regex
pattern of a leading word undefined followed by any slashes is rewritten
to a path starting with a single slash. -/
def sanitizeInput (s : String) : String :=
  if strStarts s "undefined" then
    "/" ++ String.mk ((s.toList.drop 9).dropWhile (fun c => c = '/'))
  else s

/-- logout(): reset user, token and refreshTokenValue to unauthenticated
and remove the persisted record. -/
def logoutStep (_w : World) : World :=
  { auth := {}, storage := none }

/-- Result of refreshToken(): the boolean it resolves with, the world
after it ran, and the network requests it performed. -/
structure RefreshOut where
  ok : Bool
  world : World
  reqs : List Req
deriving DecidableEq, Repr

/-- refreshToken() of the AuthProvider, reading the closure values from
w: failure without a network call when no truthy refresh token is held;
otherwise posts the refresh token; failure without mutation on a non-2xx
response or when accessToken || token of the body is falsy; on success
sets the new access token, keeps the old refresh token unless the body
carries one (nullish coalescing), and persists user plus both tokens. -/
def refreshTokenStep (env : FetchEnv) (w : World) (resp : HttpResponse) : RefreshOut :=
  if jsTruthy w.auth.refreshTokenValue then
    let req : Req := { url := buildUrl env.base "/refresh", body := w.auth.refreshTokenValue }
    if resp.ok then
      let newAccess := jsOrS resp.accessToken resp.tokenField
      if jsTruthy newAccess then
        let rt' := jsNullish resp.newRefreshToken w.auth.refreshTokenValue
        { ok := true,
          world :=
            { auth := { user := w.auth.user, token := newAccess, refreshTokenValue := rt' },
              storage := some (StoredVal.good
                { user := w.auth.user, accessToken := newAccess,
                  tokenLegacy := none, refreshToken := rt' }) },
          reqs := [req] }
      else { ok := false, world := w, reqs := [req] }
    else { ok := false, world := w, reqs := [req] }
  else { ok := false, world := w, reqs := [] }

/-- The scripted responses one fetchWithAuth call can consume: the first
attempt, the refresh endpoint response, and the retried attempt. -/
structure FetchScript where
  first : HttpResponse := {}
  refresh : HttpResponse := {}
  retried : HttpResponse := {}
deriving DecidableEq, Repr

/-- Result of fetchWithAuth: the response returned to the caller, the
world after the call, and the requests performed in order. -/
structure FetchOut where
  resp : HttpResponse
  world : World
  reqs : List Req
deriving DecidableEq, Repr

/-- fetchWithAuth of the AuthProvider for a string input.  The first
attempt goes to buildUrl of the sanitized input with a bearer header when
the closure token is truthy.  On a 401 it runs refreshToken(); on refresh
success it re-reads the latest access token from storage (falling back to
the closure token when the stored record is missing, unparsable, or has a
falsy accessToken), reissues the request once - note: with the raw input,
not the resolved one - and returns the retried response, logging out
first when that response is again a 401; on refresh failure it logs out
and returns the original response.  A non-401 first response is returned
as-is. -/
def fetchWithAuthRun (env : FetchEnv) (w : World) (input : String) (sc : FetchScript) :
    FetchOut :=
  let resolved := buildUrl env.base (sanitizeInput input)
  let req1 : Req := { url := resolved, auth := bearerOf w.auth.token }
  if sc.first.status = 401 then
    let ro := refreshTokenStep env w sc.refresh
    if ro.ok then
      let latest :=
        match ro.world.storage with
        | some (StoredVal.good r) => jsOrS r.accessToken w.auth.token
        | some (StoredVal.bad _) => w.auth.token
        | none => w.auth.token
      let req2 : Req := { url := input, auth := bearerOf latest }
      let w2 := if sc.retried.status = 401 then logoutStep ro.world else ro.world
      { resp := sc.retried, world := w2, reqs := req1 :: (ro.reqs ++ [req2]) }
    else
      { resp := sc.first, world := logoutStep ro.world, reqs := req1 :: ro.reqs }
  else { resp := sc.first, world := w, reqs := [req1] }

/-- Login failure taxonomy: Invalid credentials on a non-2xx response,
Account is disabled on an inactive profile status. -/
inductive LoginErr
  | invalidCredentials
  | accountDisabled
deriving DecidableEq, Repr

/-- The disabled-account guard of login as written in the code:
data.user?.status && data.user.status.toLowerCase() !== "active", with
JavaScript truthiness, so an empty-string status does not trigger it. -/
def disabledStatusCheck (u : Option User) : Bool :=
  match u with
  | some usr =>
    match usr.status with
    | some s => (s != "") && (strToLower s != "active")
    | none => false
  | none => false

/-- Result of login: the request performed, the world after the call
(unchanged when an error is thrown), and the thrown error if any. -/
structure LoginOut where
  req : Req
  world : World
  err : Option LoginErr
deriving DecidableEq, Repr

/-- login(email, password) of the AuthProvider: posts the lower-cased
email to the /login endpoint; throws Invalid credentials on a non-2xx
response; throws Account is disabled when the disabled guard fires,
before any state or storage mutation; otherwise stores the profile, the
access token (accessToken || token of the body) and the refresh token in
memory and persists the same record. -/
def loginRun (env : FetchEnv) (w : World) (email _password : String)
    (resp : HttpResponse) : LoginOut :=
  let req : Req := { url := buildUrl env.base "/login", body := some (strToLower email) }
  if resp.ok then
    if disabledStatusCheck resp.userData then
      { req := req, world := w, err := some LoginErr.accountDisabled }
    else
      let newAccess := jsOrS resp.accessToken resp.tokenField
      { req := req,
        world :=
          { auth := { user := resp.userData, token := newAccess,
                      refreshTokenValue := resp.newRefreshToken },
            storage := some (StoredVal.good
              { user := resp.userData, accessToken := newAccess,
                tokenLegacy := none, refreshToken := resp.newRefreshToken }) },
        err := none }
  else { req := req, world := w, err := some LoginErr.invalidCredentials }

/-- The startup load effect of the AuthProvider: an absent record leaves
the initial unauthenticated state; a stored record is parsed with
JSON.parse - which throws on unparsable text, and the effect has no
try/catch, so the error propagates - and on success populates user,
token (accessToken || token || null) and refreshTokenValue
(refreshToken || null). -/
def loadStep : Option StoredVal → Except Unit AuthState
  | none => Except.ok {}
  | some (StoredVal.bad _) => Except.error ()
  | some (StoredVal.good r) =>
    Except.ok
      { user := r.user,
        token := jsOrS r.accessToken (jsOrS r.tokenLegacy none),
        refreshTokenValue := jsOrS r.refreshToken none }

/-- A session as written by the mutating operations: user, access token,
refresh token. -/
structure SessionRec where
  user : Option User := none
  accessToken : Option String := none
  refreshToken : Option String := none
deriving DecidableEq, Repr

/-- save(session): the localStorage.setItem performed by the mutating
operations, writing the serialized record under the fixed key. -/
def saveStep (s : SessionRec) : Option StoredVal :=
  some (StoredVal.good
    { user := s.user, accessToken := s.accessToken,
      tokenLegacy := none, refreshToken := s.refreshToken })

/-- The in-memory state held right after a mutating operation saved the
session s: the setters are called with exactly the saved values. -/
def memAfterSave (s : SessionRec) : AuthState :=
  { user := s.user, token := s.accessToken, refreshTokenValue := s.refreshToken }

/-- Normalization of a token slot under JavaScript truthiness: a falsy
token (empty string) behaves exactly like an absent one - in particular
bearerOf attaches no header for either. -/
def normTok (t : Option String) : Option String :=
  if jsTruthy t then t else none

/-- Equivalence of in-memory states: equal users, and tokens equal up to
the falsy-token normalization. -/
def stateEquiv (a b : AuthState) : Prop :=
  a.user = b.user ∧ normTok a.token = normTok b.token ∧
    normTok a.refreshTokenValue = normTok b.refreshTokenValue

/-- The sync predicate of the convergence invariant: the persisted record
and the in-memory state denote the same session - both absent, or both
present with equal user, access token and refresh token. -/
def syncedB (w : World) : Bool :=
  match w.storage with
  | none => w.auth == ({} : AuthState)
  | some (StoredVal.bad _) => false
  | some (StoredVal.good r) =>
    (r.user == w.auth.user) && (r.accessToken == w.auth.token) &&
      (r.refreshToken == w.auth.refreshTokenValue)

/-- refreshUser() of the AuthProvider, with w0 the world captured by its
closure: no-op when the closure token is falsy; otherwise runs
fetchWithAuth on the /me URL (threading any mutation that call performs);
when the response is ok it sets the user to the returned profile, reads
prev from storage with JSON.parse (which throws on unparsable text), and
persists the profile, prev.accessToken || closure token, and the closure
refreshTokenValue - the closure values are the stale pre-call ones. -/
def refreshUserRun (env : FetchEnv) (w0 : World) (sc : FetchScript) :
    Except Unit World :=
  if jsTruthy w0.auth.token then
    let out := fetchWithAuthRun env w0 (buildUrl env.base "/me") sc
    if out.resp.ok then
      match out.world.storage with
      | some (StoredVal.bad _) => Except.error ()
      | some (StoredVal.good prev) =>
        Except.ok
          { auth := { user := out.resp.userData, token := out.world.auth.token,
                      refreshTokenValue := out.world.auth.refreshTokenValue },
            storage := some (StoredVal.good
              { user := out.resp.userData,
                accessToken := jsOrS prev.accessToken w0.auth.token,
                tokenLegacy := none,
                refreshToken := w0.auth.refreshTokenValue }) }
      | none =>
        Except.ok
          { auth := { user := out.resp.userData, token := out.world.auth.token,
                      refreshTokenValue := out.world.auth.refreshTokenValue },
            storage := some (StoredVal.good
              { user := out.resp.userData,
                accessToken := jsOrS none w0.auth.token,
                tokenLegacy := none,
                refreshToken := w0.auth.refreshTokenValue }) }
    else Except.ok out.world
  else Except.ok w0

/-- Normalized page shape used by the data service: items plus the next
cursor. -/
structure LeadsResponse (α : Type) where
  items : List α
  nextCursor : Option Nat
deriving DecidableEq, Repr

/-- Raw backend page shape: a bare array (final page) or an object with
optional items and nextCursor. -/
inductive RawLeadsResponse (α : Type)
  | arr (items : List α)
  | obj (items : Option (List α)) (nextCursor : Option Nat)
deriving DecidableEq, Repr

/-- JavaScript data.nextCursor || null on a numeric cursor: 0 is falsy
and becomes null. -/
def jsOrNat : Option Nat → Option Nat
  | some 0 => none
  | some (n + 1) => some (n + 1)
  | none => none

/-- The response normalization of fetchLeads: a bare array becomes a
final page; an object keeps items (defaulting to the empty array) and
nextCursor || null. -/
def normalizeLeads {α : Type} : RawLeadsResponse α → LeadsResponse α
  | RawLeadsResponse.arr xs => { items := xs, nextCursor := none }
  | RawLeadsResponse.obj it nc => { items := it.getD [], nextCursor := jsOrNat nc }

/-- The request URL built by fetchLeads: the cursor query parameter is
appended only when the cursor is truthy, so a cursor of 0 (like null)
omits it. -/
def leadsUrl (base : String) (take : Nat) (cursor : Option Nat) : String :=
  match cursor with
  | some c =>
    if c = 0 then base ++ "/crm-leads?take=" ++ toString take
    else base ++ "/crm-leads?take=" ++ toString take ++ "&cursor=" ++ toString c
  | none => base ++ "/crm-leads?take=" ++ toString take

/-- The mock paginated response of fetchMockLeads over a given dataset
(the randomly generated lead list is abstracted as the parameter
allLeads): startIndex is cursor || 0, endIndex caps at the dataset
length, items is the slice, nextCursor is endIndex when more data
remains and null otherwise. -/
def fetchMockLeadsModel {α : Type} (take : Nat) (cursor : Option Nat)
    (allLeads : List α) :
    LeadsResponse α × Nat :=
  let startIndex := cursor.getD 0
  let endIndex := min (startIndex + take) allLeads.length
  ({ items := (allLeads.drop startIndex).take (endIndex - startIndex),
     nextCursor := if endIndex < allLeads.length then some endIndex else none },
   allLeads.length)

/-- Result of the fetchAllLeads loop: the aggregated items and the
performed page requests as (take, cursor) pairs in order. -/
structure AllOut (α : Type) where
  items : List α
  reqs : List (Nat × Option Nat)
deriving DecidableEq, Repr

/-- The do-while body of fetchAllLeads: fetch a page of 100 at the
current cursor, append its items, and continue while the normalized
nextCursor is non-null and fuel (the remaining allowance of the pages
counter against maxPages) is positive.  The first fetch is unconditional,
matching do-while semantics. -/
def fetchAllLeadsGo {α : Type} (oracle : Option Nat → RawLeadsResponse α) :
    Nat → Option Nat → List α → AllOut α
  | 0, cursor, acc =>
    { items := acc ++ (normalizeLeads (oracle cursor)).items, reqs := [(100, cursor)] }
  | f + 1, cursor, acc =>
    match (normalizeLeads (oracle cursor)).nextCursor with
    | none =>
      { items := acc ++ (normalizeLeads (oracle cursor)).items, reqs := [(100, cursor)] }
    | some c =>
      let o := fetchAllLeadsGo oracle f (some c)
        (acc ++ (normalizeLeads (oracle cursor)).items)
      { items := o.items, reqs := (100, cursor) :: o.reqs }

/-- fetchAllLeads(maxPages): run the do-while loop from a null cursor
with an empty accumulator; the pages counter allows maxPages - 1 further
fetches after the unconditional first one. -/
def fetchAllLeads {α : Type} (oracle : Option Nat → RawLeadsResponse α)
    (maxPages : Nat) : AllOut α :=
  fetchAllLeadsGo oracle (maxPages - 1) none []

/-! Concrete sample data used by counterexamples and witnesses. -/

/-- A sample active user profile. -/
def u0 : User :=
  { userid := 1, name := "A", email := "a@b.c", roleid := 1, status := some "active" }

/-- The profile returned by the /me endpoint in the refreshUser scenario. -/
def p0 : User :=
  { userid := 1, name := "A2", email := "a@b.c", roleid := 1, status := some "active" }

/-- A profile whose status field is present but the empty string. -/
def uEmptyStatus : User :=
  { userid := 2, name := "B", email := "b@x.y", roleid := 1, status := some "" }

/-- Environment with a configured API base URL. -/
def env0 : FetchEnv := { base := some "https://api.example.com" }

/-- An authenticated world whose persisted record and in-memory state are
in sync (tokens T0 and R0). -/
def w0 : World :=
  { auth := { user := some u0, token := some "T0", refreshTokenValue := some "R0" },
    storage := some (StoredVal.good
      { user := some u0, accessToken := some "T0",
        tokenLegacy := none, refreshToken := some "R0" }) }

/-- An authenticated world holding no refresh token. -/
def wNoRt : World :=
  { auth := { user := some u0, token := some "T0", refreshTokenValue := none },
    storage := none }

/-- Script for the C1 scenario: first attempt 401, refresh succeeds with
a new access token T1, retried attempt 200. -/
def sc1 : FetchScript :=
  { first := { status := 401 },
    refresh := { status := 200, accessToken := some "T1" },
    retried := { status := 200 } }

/-- Script where the first attempt is a 401 and the refresh endpoint is
never usable (no refresh token is held in wNoRt). -/
def sc2 : FetchScript :=
  { first := { status := 401 }, refresh := { status := 200 }, retried := { status := 200 } }

/-- Script where refresh succeeds but the retried attempt is again 401. -/
def sc3 : FetchScript :=
  { first := { status := 401 },
    refresh := { status := 200, accessToken := some "T1" },
    retried := { status := 401 } }

/-- Script for the refreshUser scenario: the /me call hits a 401, the
refresh succeeds and rotates the refresh token to R1, the retried /me
returns the fresh profile. -/
def sc7 : FetchScript :=
  { first := { status := 401 },
    refresh := { status := 200, accessToken := some "T1", newRefreshToken := some "R1" },
    retried := { status := 200, userData := some p0 } }

/-- The world refreshUser produces in the sc7 scenario: the in-memory
refresh token is the rotated R1 while the persisted record still holds
the stale R0. -/
def w7cex : World :=
  { auth := { user := some p0, token := some "T1", refreshTokenValue := some "R1" },
    storage := some (StoredVal.good
      { user := some p0, accessToken := some "T1",
        tokenLegacy := none, refreshToken := some "R0" }) }

/-- A 2xx login response whose profile status is the empty string. -/
def respD : HttpResponse :=
  { status := 200, accessToken := some "T0", newRefreshToken := some "R0",
    userData := some uEmptyStatus }

/-- A 2xx login response for an active account. -/
def respA : HttpResponse :=
  { status := 200, accessToken := some "T0", newRefreshToken := some "R0",
    userData := some u0 }

/-- A well-formed stored record with truthy tokens. -/
def r6 : StoredRecord :=
  { user := some u0, accessToken := some "A", tokenLegacy := none, refreshToken := some "R" }

/-- A refresh response carrying a new access token and no rotated
refresh token. -/
def respRefresh : HttpResponse := { status := 200, accessToken := some "T1" }

/-- Page oracle returning an object page with a non-null cursor on every
request. -/
def cexOracle : Option Nat → RawLeadsResponse Nat :=
  fun _ => RawLeadsResponse.obj (some [7]) (some 5)

/-- Page oracle whose second page is a bare array, terminating the
pagination. -/
def stopOracle : Option Nat → RawLeadsResponse Nat := fun c =>
  match c with
  | none => RawLeadsResponse.obj (some [1]) (some 3)
  | some _ => RawLeadsResponse.arr [9]

/-! Helper lemmas. -/

theorem jsOrS_none_right (a : Option String) : jsOrS a none = normTok a := by
  simp [jsOrS, normTok]

theorem normTok_idem (a : Option String) : normTok (normTok a) = normTok a := by
  rcases a with _ | s
  · rfl
  · by_cases h : s = ""
    · simp [normTok, jsTruthy, h]
    · simp [normTok, jsTruthy, h]

theorem bearerOf_normTok (a : Option String) : bearerOf (normTok a) = bearerOf a := by
  rcases a with _ | s
  · rfl
  · by_cases h : s = ""
    · simp [normTok, jsTruthy, bearerOf, h]
    · simp [normTok, jsTruthy, bearerOf, h]

/-! Claim theorems. -/

/-- C10: for every take value, fetchLeads with cursor 0 issues the same
request URL as with cursor null (the cursor parameter is omitted), and on
the mock path the two calls return identical responses, paginating from
index 0 of the dataset - so a backend cursor of 0 is indistinguishable
from no cursor at this interface. -/
theorem c10_cursor_zero_same_as_null {α : Type} (base : String) (take : Nat)
    (allLeads : List α) :
    leadsUrl base take (some 0) = leadsUrl base take none ∧
    fetchMockLeadsModel take (some 0) allLeads = fetchMockLeadsModel take none allLeads ∧
    (fetchMockLeadsModel take (some 0) allLeads).1.items =
      allLeads.take (min take allLeads.length) := by
  refine ⟨rfl, rfl, ?_⟩
  simp [fetchMockLeadsModel]

/-- C9: saving a session and then running the startup load reproduces an
in-memory state equivalent to the one held right after the save; the
states agree on the user exactly and on both tokens up to the falsy-token
normalization, which is observationally sound because the attached
Authorization header is identical. -/
theorem c9_save_then_load_roundtrip (s : SessionRec) :
    ∃ t, loadStep (saveStep s) = Except.ok t ∧ stateEquiv t (memAfterSave s) ∧
      bearerOf t.token = bearerOf (memAfterSave s).token := by
  refine ⟨_, rfl, ⟨rfl, ?_, ?_⟩, ?_⟩
  · show normTok (jsOrS s.accessToken (jsOrS none none)) = normTok s.accessToken
    rw [show jsOrS none none = none from rfl, jsOrS_none_right, normTok_idem]
  · show normTok (jsOrS s.refreshToken none) = normTok s.refreshToken
    rw [jsOrS_none_right, normTok_idem]
  · show bearerOf (jsOrS s.accessToken (jsOrS none none)) = bearerOf s.accessToken
    rw [show jsOrS none none = none from rfl, jsOrS_none_right, bearerOf_normTok]

/-- C6 (amended): the startup load yields the stored state when the
record is present and well-formed (truthy tokens), and yields the empty
unauthenticated state when the record is absent; when the record is
present but malformed (unparsable JSON) the parse error propagates
instead of being swallowed. -/
theorem c6_load_amended :
    loadStep none = Except.ok ({} : AuthState) ∧
    (∀ s : String, loadStep (some (StoredVal.bad s)) = Except.error ()) ∧
    (∀ r : StoredRecord, jsTruthy r.accessToken = true → jsTruthy r.refreshToken = true →
      loadStep (some (StoredVal.good r)) =
        Except.ok { user := r.user, token := r.accessToken,
                    refreshTokenValue := r.refreshToken }) := by
  refine ⟨rfl, fun s => rfl, fun r h1 h2 => ?_⟩
  simp [loadStep, jsOrS, h1, h2]

/-- C6 witness: the amended load theorem applied to a concrete absent
cell, malformed cell and well-formed record. -/
theorem c6_load_amended_witness :
    loadStep none = Except.ok ({} : AuthState) ∧
    loadStep (some (StoredVal.bad "x")) = Except.error () ∧
    loadStep (some (StoredVal.good r6)) =
      Except.ok { user := r6.user, token := r6.accessToken,
                  refreshTokenValue := r6.refreshToken } :=
  ⟨c6_load_amended.1, c6_load_amended.2.1 "x",
    c6_load_amended.2.2 r6 (by decide) (by decide)⟩

/-- C6 counterexample: on a malformed stored record the load raises an
error rather than yielding the empty unauthenticated state with no error,
refuting the claim as stated. -/
theorem c6_malformed_raises :
    loadStep (some (StoredVal.bad "not-json")) = Except.error () ∧
    loadStep (some (StoredVal.bad "not-json")) ≠ Except.ok ({} : AuthState) := by
  exact ⟨rfl, by simp [loadStep]⟩

/-- C2: when the first attempt returns 401 and the refresh fails, the
wrapper logs out - clearing the in-memory state and removing the
persisted record - and returns the original pre-refresh response. -/
theorem c2_refresh_failure_original_response (env : FetchEnv) (w : World) (input : String)
    (sc : FetchScript) (h1 : sc.first.status = 401)
    (h2 : (refreshTokenStep env w sc.refresh).ok = false) :
    (fetchWithAuthRun env w input sc).resp = sc.first ∧
    (fetchWithAuthRun env w input sc).world = { auth := {}, storage := none } := by
  simp [fetchWithAuthRun, h1, h2, logoutStep]

/-- C2 witness: concrete run with no refresh token held, so the refresh
fails; the original 401 comes back and the session is cleared. -/
theorem c2_refresh_failure_original_response_witness :
    (fetchWithAuthRun env0 wNoRt "/leads" sc2).resp = sc2.first ∧
    (fetchWithAuthRun env0 wNoRt "/leads" sc2).world = { auth := {}, storage := none } :=
  c2_refresh_failure_original_response env0 wNoRt "/leads" sc2 (by decide) (by decide)

/-- C3: when the first attempt returns 401, the refresh succeeds, and the
retried attempt is again 401, the wrapper logs out as a side effect but
still returns the retried 401 response (it never turns this case into a
different response). -/
theorem c3_retried_401_logout_but_returned (env : FetchEnv) (w : World) (input : String)
    (sc : FetchScript) (h1 : sc.first.status = 401)
    (h2 : (refreshTokenStep env w sc.refresh).ok = true)
    (h3 : sc.retried.status = 401) :
    (fetchWithAuthRun env w input sc).resp = sc.retried ∧
    (fetchWithAuthRun env w input sc).resp.status = 401 ∧
    (fetchWithAuthRun env w input sc).world = { auth := {}, storage := none } := by
  simp [fetchWithAuthRun, h1, h2, h3, logoutStep]

/-- C3 witness: concrete run where the refresh succeeds and the retried
response is again a 401. -/
theorem c3_retried_401_logout_but_returned_witness :
    (fetchWithAuthRun env0 w0 "/leads" sc3).resp = sc3.retried ∧
    (fetchWithAuthRun env0 w0 "/leads" sc3).resp.status = 401 ∧
    (fetchWithAuthRun env0 w0 "/leads" sc3).world = { auth := {}, storage := none } :=
  c3_retried_401_logout_but_returned env0 w0 "/leads" sc3 (by decide) (by decide) (by decide)

/-- C5: refreshToken returns failure without any state or storage change
when no refresh token is held (then also without a network call), when
the endpoint answers non-2xx, or when the response carries no new access
token; only on success does it set the new access token, keep or replace
the refresh token, and persist the updated session matching the new
in-memory state. -/
theorem c5_refresh_token_contract (env : FetchEnv) (w : World) (resp : HttpResponse) :
    (jsTruthy w.auth.refreshTokenValue = false →
      refreshTokenStep env w resp = { ok := false, world := w, reqs := [] }) ∧
    (resp.ok = false → (refreshTokenStep env w resp).ok = false ∧
      (refreshTokenStep env w resp).world = w) ∧
    (jsTruthy (jsOrS resp.accessToken resp.tokenField) = false →
      (refreshTokenStep env w resp).ok = false ∧
      (refreshTokenStep env w resp).world = w) ∧
    ((refreshTokenStep env w resp).ok = true →
      (refreshTokenStep env w resp).world.auth.user = w.auth.user ∧
      (refreshTokenStep env w resp).world.auth.token =
        jsOrS resp.accessToken resp.tokenField ∧
      (resp.newRefreshToken = none →
        (refreshTokenStep env w resp).world.auth.refreshTokenValue =
          w.auth.refreshTokenValue) ∧
      (∀ x, resp.newRefreshToken = some x →
        (refreshTokenStep env w resp).world.auth.refreshTokenValue = some x) ∧
      (refreshTokenStep env w resp).world.storage = some (StoredVal.good
        { user := (refreshTokenStep env w resp).world.auth.user,
          accessToken := (refreshTokenStep env w resp).world.auth.token,
          tokenLegacy := none,
          refreshToken := (refreshTokenStep env w resp).world.auth.refreshTokenValue })) := by
  refine ⟨fun h => ?_, fun h => ?_, fun h => ?_, fun h => ?_⟩
  · simp [refreshTokenStep, h]
  · by_cases hrt : jsTruthy w.auth.refreshTokenValue <;>
      simp [refreshTokenStep, hrt, h]
  · by_cases hrt : jsTruthy w.auth.refreshTokenValue <;>
      by_cases hok : resp.ok <;>
        simp [refreshTokenStep, hrt, hok, h]
  · by_cases hrt : jsTruthy w.auth.refreshTokenValue <;>
      by_cases hok : resp.ok <;>
        by_cases hna : jsTruthy (jsOrS resp.accessToken resp.tokenField) <;>
          simp_all [refreshTokenStep, jsNullish] <;>
            rcases resp.newRefreshToken with _ | x <;> simp_all

/-- C5 witness: the contract applied to a state with no refresh token, a
non-2xx refresh, a token-free 2xx refresh, and a successful refresh. -/
theorem c5_refresh_token_contract_witness :
    refreshTokenStep env0 wNoRt respRefresh = { ok := false, world := wNoRt, reqs := [] } ∧
    ((refreshTokenStep env0 w0 { status := 500 }).ok = false ∧
      (refreshTokenStep env0 w0 { status := 500 }).world = w0) ∧
    ((refreshTokenStep env0 w0 { status := 200 }).ok = false ∧
      (refreshTokenStep env0 w0 { status := 200 }).world = w0) ∧
    (refreshTokenStep env0 w0 respRefresh).world.auth.user = w0.auth.user ∧
    (refreshTokenStep env0 w0 respRefresh).world.auth.refreshTokenValue =
      w0.auth.refreshTokenValue :=
  ⟨(c5_refresh_token_contract env0 wNoRt respRefresh).1 (by decide),
    (c5_refresh_token_contract env0 w0 { status := 500 }).2.1 (by decide),
    (c5_refresh_token_contract env0 w0 { status := 200 }).2.2.1 (by decide),
    ((c5_refresh_token_contract env0 w0 respRefresh).2.2.2 (by decide)).1,
    ((c5_refresh_token_contract env0 w0 respRefresh).2.2.2 (by decide)).2.2.1 (by decide)⟩

/-- C4 counterexample: a 2xx login response whose profile carries a
present status field equal to the empty string, which is case-insensitively
not active; the claim then demands an AccountDisabled rejection with
nothing persisted, but login succeeds and persists a session. -/
theorem c4_empty_status_not_rejected :
    respD.ok = true ∧
    respD.userData = some uEmptyStatus ∧
    uEmptyStatus.status = some "" ∧
    strToLower "" ≠ "active" ∧
    (loginRun env0 {} "B@X.Y" "pw" respD).err = none ∧
    (loginRun env0 {} "B@X.Y" "pw" respD).world.storage ≠ none := by
  decide

/-- C4 (amended): login submits the email lower-cased; it throws
InvalidCredentials exactly when the response is non-2xx; when the call
succeeds and the profile status is present, non-empty and
case-insensitively not active, it throws AccountDisabled with no state
change and nothing persisted; otherwise it stores the profile and access
and refresh tokens in memory and persists the same record. -/
theorem c4_login_contract (env : FetchEnv) (w : World) (email pw : String)
    (resp : HttpResponse) :
    (loginRun env w email pw resp).req.body = some (strToLower email) ∧
    ((loginRun env w email pw resp).err = some LoginErr.invalidCredentials ↔
      resp.ok = false) ∧
    (∀ u s, resp.ok = true → resp.userData = some u → u.status = some s → s ≠ "" →
      strToLower s ≠ "active" →
      (loginRun env w email pw resp).err = some LoginErr.accountDisabled ∧
      (loginRun env w email pw resp).world = w) ∧
    (resp.ok = true → disabledStatusCheck resp.userData = false →
      (loginRun env w email pw resp).err = none ∧
      (loginRun env w email pw resp).world.auth =
        { user := resp.userData, token := jsOrS resp.accessToken resp.tokenField,
          refreshTokenValue := resp.newRefreshToken } ∧
      (loginRun env w email pw resp).world.storage = some (StoredVal.good
        { user := resp.userData,
          accessToken := jsOrS resp.accessToken resp.tokenField,
          tokenLegacy := none, refreshToken := resp.newRefreshToken })) := by
  refine ⟨?_, ?_, ?_, ?_⟩
  · by_cases hok : resp.ok <;>
      by_cases hd : disabledStatusCheck resp.userData <;>
        simp [loginRun, hok, hd]
  · by_cases hok : resp.ok
    · by_cases hd : disabledStatusCheck resp.userData <;>
        simp [loginRun, hok, hd]
    · simp [loginRun, hok]
  · intro u s hok hu hs hne hna
    have hd : disabledStatusCheck resp.userData = true := by
      simp [disabledStatusCheck, hu, hs, hne, hna]
    simp [loginRun, hok, hd]
  · intro hok hd
    simp [loginRun, hok, hd]

/-- C4 witness: the amended login contract applied to a rejected login, a
disabled-status login, and a successful active login. -/
theorem c4_login_contract_witness :
    ((loginRun env0 {} "A@B.C" "pw" { status := 401 }).err =
      some LoginErr.invalidCredentials) ∧
    ((loginRun env0 {} "A@B.C" "pw"
        { status := 200, userData := some { u0 with status := some "Disabled" } }).err =
      some LoginErr.accountDisabled) ∧
    ((loginRun env0 {} "A@B.C" "pw" respA).err = none) :=
  ⟨((c4_login_contract env0 {} "A@B.C" "pw" { status := 401 }).2.1).2 (by decide),
    ((c4_login_contract env0 {} "A@B.C" "pw"
        { status := 200, userData := some { u0 with status := some "Disabled" } }).2.2.1
      { u0 with status := some "Disabled" } "Disabled"
      (by decide) (by decide) (by decide) (by decide) (by decide)).1,
    ((c4_login_contract env0 {} "A@B.C" "pw" respA).2.2.2 (by decide) (by decide)).1⟩

/-- C1 evaluation at the failing input: with a relative path input and a
configured base URL, a 401 followed by a successful refresh makes the
wrapper perform the first attempt at the resolved URL, one refresh call,
and the retry carrying the re-read token - but the retry goes to the raw
unresolved input, a different URL than the first attempt, contradicting
the same-target-URL part of the claim (the retry line passes input rather
than resolvedInput to fetch). -/
theorem c1_retry_goes_to_unresolved_url :
    (fetchWithAuthRun env0 w0 "/leads" sc1).reqs =
      [ { url := "https://api.example.com/leads", auth := some "Bearer T0", body := none },
        { url := "https://api.example.com/refresh", auth := none, body := some "R0" },
        { url := "/leads", auth := some "Bearer T1", body := none } ] ∧
    (fetchWithAuthRun env0 w0 "/leads" sc1).resp = sc1.retried ∧
    "https://api.example.com/leads" ≠ "/leads" := by
  refine ⟨by decide, by decide, by decide⟩

/-- C7 evaluation at the failing input: starting from a synced world, a
refreshUser whose inner /me call triggers a successful token refresh that
rotates the refresh token to R1 completes successfully, yet afterwards
the in-memory refresh token is R1 while the persisted record still holds
the stale closure value R0 - the persisted and in-memory sessions do not
converge after this completed mutating operation. -/
theorem c7_refresh_user_breaks_sync :
    syncedB w0 = true ∧
    refreshUserRun env0 w0 sc7 = Except.ok w7cex ∧
    w7cex.auth.refreshTokenValue = some "R1" ∧
    (match w7cex.storage with
      | some (StoredVal.good r) => r.refreshToken
      | _ => none) = some "R0" ∧
    syncedB w7cex = false := by
  refine ⟨by decide, rfl, by decide, by decide, by decide⟩

/-- Loop invariant of the fetchAllLeads do-while: with fuel remaining
page allowance, the loop performs between 1 and fuel + 1 page requests,
the first at the given cursor, all with take 100; the aggregate equals
the accumulator followed by the fetched pages in order; and if it stopped
before exhausting fuel then some fetched page had a null cursor. -/
theorem fetchAllLeadsGo_spec {α : Type} (oracle : Option Nat → RawLeadsResponse α) :
    ∀ (fuel : Nat) (cursor : Option Nat) (acc : List α),
      (fetchAllLeadsGo oracle fuel cursor acc).reqs.length ≤ fuel + 1 ∧
      (fetchAllLeadsGo oracle fuel cursor acc).reqs.head? = some (100, cursor) ∧
      (∀ q ∈ (fetchAllLeadsGo oracle fuel cursor acc).reqs, q.1 = 100) ∧
      (fetchAllLeadsGo oracle fuel cursor acc).items =
        acc ++ ((fetchAllLeadsGo oracle fuel cursor acc).reqs.map
          (fun q => (normalizeLeads (oracle q.2)).items)).join ∧
      ((fetchAllLeadsGo oracle fuel cursor acc).reqs.length < fuel + 1 →
        ∃ q ∈ (fetchAllLeadsGo oracle fuel cursor acc).reqs,
          (normalizeLeads (oracle q.2)).nextCursor = none) := by
  intro fuel
  induction fuel with
  | zero =>
    intro cursor acc
    refine ⟨by simp [fetchAllLeadsGo], by simp [fetchAllLeadsGo],
      by simp [fetchAllLeadsGo], by simp [fetchAllLeadsGo], ?_⟩
    intro h
    simp [fetchAllLeadsGo] at h
  | succ f ih =>
    intro cursor acc
    rcases hnc : (normalizeLeads (oracle cursor)).nextCursor with _ | c
    · have he : fetchAllLeadsGo oracle (f + 1) cursor acc =
          { items := acc ++ (normalizeLeads (oracle cursor)).items,
            reqs := [(100, cursor)] } := by
        simp [fetchAllLeadsGo, hnc]
      rw [he]
      refine ⟨by simp, rfl, by simp, by simp, ?_⟩
      intro _
      exact ⟨(100, cursor), by simp, hnc⟩
    · have he : fetchAllLeadsGo oracle (f + 1) cursor acc =
          { items := (fetchAllLeadsGo oracle f (some c)
              (acc ++ (normalizeLeads (oracle cursor)).items)).items,
            reqs := (100, cursor) :: (fetchAllLeadsGo oracle f (some c)
              (acc ++ (normalizeLeads (oracle cursor)).items)).reqs } := by
        simp [fetchAllLeadsGo, hnc]
      obtain ⟨ih1, ih2, ih3, ih4, ih5⟩ :=
        ih (some c) (acc ++ (normalizeLeads (oracle cursor)).items)
      rw [he]
      refine ⟨?_, rfl, ?_, ?_, ?_⟩
      · simpa using Nat.succ_le_succ ih1
      · intro q hq
        rcases List.mem_cons.mp hq with h | h
        · subst h; rfl
        · exact ih3 q h
      · simpa [List.append_assoc] using ih4
      · intro h
        obtain ⟨q, hq, hn⟩ := ih5 (by simpa using Nat.lt_of_succ_lt_succ h)
        exact ⟨q, List.mem_cons_of_mem _ hq, hn⟩

/-- C8 counterexample: with a maxPages ceiling of 0 the do-while loop
still performs its unconditional first fetch, so one page is requested,
exceeding the claimed ceiling of at most maxPages pages. -/
theorem c8_zero_ceiling_still_fetches :
    (fetchAllLeads cexOracle 0).reqs.length = 1 ∧
    ¬ ((fetchAllLeads cexOracle 0).reqs.length ≤ 0) := by
  decide

/-- C8 (amended): fetchAllLeads requests pages of 100 starting with no
cursor, concatenates the fetched pages in page order, and stops when the
normalized nextCursor is null or the page ceiling is reached, fetching at
most max(1, maxPages) pages - the first page is always fetched even when
maxPages is 0, since the loop body runs before the ceiling test. -/
theorem c8_pagination_amended {α : Type} (oracle : Option Nat → RawLeadsResponse α)
    (maxPages : Nat) :
    (fetchAllLeads oracle maxPages).reqs.head? = some (100, none) ∧
    (∀ q ∈ (fetchAllLeads oracle maxPages).reqs, q.1 = 100) ∧
    (fetchAllLeads oracle maxPages).reqs.length ≤ max 1 maxPages ∧
    (fetchAllLeads oracle maxPages).items =
      ((fetchAllLeads oracle maxPages).reqs.map
        (fun q => (normalizeLeads (oracle q.2)).items)).join ∧
    ((fetchAllLeads oracle maxPages).reqs.length < max 1 maxPages →
      ∃ q ∈ (fetchAllLeads oracle maxPages).reqs,
        (normalizeLeads (oracle q.2)).nextCursor = none) := by
  have h := fetchAllLeadsGo_spec oracle (maxPages - 1) none []
  have hm : maxPages - 1 + 1 = max 1 maxPages := by omega
  rw [hm] at h
  unfold fetchAllLeads
  exact ⟨h.2.1, h.2.2.1, h.1, by simpa using h.2.2.2.1, h.2.2.2.2⟩

/-- C8 witness: the amended pagination contract applied to a concrete
oracle whose second page is a bare array: the run stops after two pages,
below the ceiling of five, because a fetched page had a null cursor. -/
theorem c8_pagination_amended_witness :
    (100, (none : Option Nat)).1 = 100 ∧
    (∃ q ∈ (fetchAllLeads stopOracle 5).reqs,
      (normalizeLeads (stopOracle q.2)).nextCursor = none) :=
  ⟨(c8_pagination_amended stopOracle 5).2.1 (100, none) (by decide),
    (c8_pagination_amended stopOracle 5).2.2.2.2 (by decide)⟩
